import Mathlib

/-!
Verification of the GroundX document-upload-and-chat front-end (`app.py`).

Python strings are modelled as lists of Unicode characters (`Str`), Python
`None`-able values as `Option`, and Python dict truthiness checks
(`if not x`, `x.get(k)`) as explicit emptiness tests.  The two remote
services (document API, completion API) are collaborators: their replies
enter the model as explicit oracle parameters.
-/

namespace GroundX

abbrev Str := List Char

/-- One chunk of a document page in an X-Ray result.  In Python a chunk is a
dict that may lack the `"text"` key; `text = none` models the absent key. -/
structure Chunk where
  text : Option Str
deriving DecidableEq, Repr

/-- One page of an X-Ray result; the `"chunks"` key may be absent. -/
structure Page where
  chunks : Option (List Chunk)
deriving DecidableEq, Repr

/-- The structured result of remote document analysis, restricted to the
fields `prepare_chat_context` reads.  Each `Option` field models a possibly
absent dict key. -/
structure XRayResult where
  fileSummary : Option Str
  fileType : Option Str
  language : Option Str
  documentPages : Option (List Page)
deriving DecidableEq, Repr

/-- From `app.py` line 84-86: the chunk text is cut to its first 500
characters plus an ellipsis when longer than 500 characters. -/
def truncateText (t : Str) : Str :=
  if t.length > 500 then t.take 500 ++ "...".toList else t

/-- From `app.py` line 83-87: a chunk contributes an excerpt iff it has a `"text"`
key whose value is truthy (a non-empty string). -/
def chunkExcerpt (c : Chunk) : Option Str :=
  match c.text with
  | some t => if t = [] then none else some (truncateText t)
  | none => none

/-- From `app.py` line 81-87: excerpts of one page, first 3 chunks only; a page
without a `"chunks"` key contributes nothing. -/
def pageExcerpts (p : Page) : List Str :=
  match p.chunks with
  | some cs => (cs.take 3).filterMap chunkExcerpt
  | none => []

/-- From `app.py` line 79-87: the `extracted_texts` list, walking only the first
2 pages. -/
def extracted_texts (pages : List Page) : List Str :=
  (pages.take 2).flatMap pageExcerpts

/-- From `app.py` line 74-75: the `Summary:` part, added when `fileSummary` is
present and truthy. -/
def summary_part (fs : Option Str) : List Str :=
  match fs with
  | some s => if s = [] then [] else ["Summary: ".toList ++ s]
  | none => []

/-- From `app.py` line 78-90: the `Document Content:` part, added when
`documentPages` is present and truthy and some excerpt was collected. -/
def content_part (dp : Option (List Page)) : List Str :=
  match dp with
  | some ps =>
    if ps = [] then []
    else
      let ts := extracted_texts ps
      if ts = [] then []
      else ["Document Content: ".toList ++ List.intercalate " ".toList ts]
  | none => []

/-- From `app.py` line 93-94: the `File Type:` part. -/
def filetype_part (ft : Option Str) : List Str :=
  match ft with
  | some t => if t = [] then [] else ["File Type: ".toList ++ t]
  | none => []

/-- From `app.py` line 95-96: the `Language:` part. -/
def language_part (lg : Option Str) : List Str :=
  match lg with
  | some l => if l = [] then [] else ["Language: ".toList ++ l]
  | none => []

/-- From `app.py` line 71-96: the `context_parts` list in source order:
Summary, Document Content, File Type, Language; each part only when its
source field is present and truthy. -/
def context_parts (x : XRayResult) : List Str :=
  summary_part x.fileSummary ++ content_part x.documentPages ++
    filetype_part x.fileType ++ language_part x.language

/-- From `app.py` line 66-98, `prepare_chat_context(xray_data, prompt)`.
`xray = none` models a falsy `xray_data` (Python `None` or the empty dict:
an empty dict produces no parts either way, see `context_parts`).  The
`prompt` argument is carried to mirror the source signature. -/
def prepare_chat_context (xray : Option XRayResult) (prompt : Str) : Option Str :=
  match xray with
  | none => none
  | some x =>
    let parts := context_parts x
    if parts = [] then none else some (List.intercalate "\n\n".toList parts)

/-! ## Chat Turn Generator (`generate_chat_response`, app.py line 100-159) -/

/-- From `app.py` line 105: the fixed error returned when `OPENROUTER_API_KEY` is
missing. -/
def openrouter_key_error : Str :=
  "❌ Error: OPENROUTER_API_KEY not found in environment variables. Please add it to your .env file.".toList

/-- From `app.py` line 109: fallback instruction substituted for a falsy context. -/
def no_context_instruction : Str :=
  "No document context available. Answer the question based on general knowledge.".toList

/-- From `app.py` line 108-109: `if not context:` replaces both `None` and the
empty string by the fallback instruction. -/
def resolve_context : Option Str → Str
  | none => no_context_instruction
  | some c => if c = [] then no_context_instruction else c

/-- Leading text of the f-string at `app.py` line 112. -/
def prompt_header : Str :=
  "You are an AI assistant helping analyze a document. You have access to the following document information:\n\n".toList

/-- Trailing text of the f-string at `app.py` line 116-126. -/
def prompt_instructions : Str :=
  "\n\nInstructions:\n- Answer the question directly and concisely\n- Use Document Content for specific details\n- Use Summary for general overview\n- Don\x27t add unnecessary disclaimers or explanations\n- If you don\x27t have the information, simply say \"I don\x27t have enough information to answer that question\"\n- Keep responses focused and to the point\n\nResponse:".toList

/-- From `app.py` line 112-126: the `full_prompt` f-string, with the context
already resolved. -/
def full_prompt (prompt : Str) (context : Str) : Str :=
  prompt_header ++ context ++ "\n\nUser Question: ".toList ++ prompt ++ prompt_instructions

/-- Parsed JSON body of a completion response.  `choices = none` models a
body without a `"choices"` key; each list element is the already-extracted
`message.content` of one choice. -/
structure CompletionBody where
  choices : Option (List Str)
deriving DecidableEq, Repr

/-- Outcome of the `requests.post` call: either an HTTP response (any status)
or a raised exception (transport failure, or any error raised inside the
`try` block, which spans parsing too). -/
inductive HttpResult where
  | response (status : Nat) (body : CompletionBody)
  | exn (msg : Str)
deriving DecidableEq, Repr

/-- The fields of the outgoing completion request that the claims touch
(`app.py` line 130-147).  The float literal `temperature = 0.3` is left out
of the model; no claim concerns it. -/
structure ChatRequest where
  model : Str
  content : Str
  max_tokens : Nat
  timeout : Nat
deriving DecidableEq, Repr

/-- From `app.py` line 130-147: the request posted to the completion endpoint,
for a given question and (unresolved) context. -/
def mkChatRequest (prompt : Str) (context : Option Str) : ChatRequest :=
  ⟨"openai/gpt-4o-mini".toList, full_prompt prompt (resolve_context context), 300, 60⟩

/-- From `app.py` line 154: fallback for a 200 response without usable choices. -/
def no_choices_fallback : Str :=
  "Sorry, I couldn\x27t generate a response.".toList

/-- From `app.py` line 100-159, `generate_chat_response(prompt, context)`.  The
environment variable `OPENROUTER_API_KEY` is the `api_key` argument
(`none` = unset); the remote completion API is the oracle `http`, mapping
the request this function builds to what `requests.post` produced. -/
def generate_chat_response (api_key : Option Str) (prompt : Str) (context : Option Str)
    (http : ChatRequest → HttpResult) : Str :=
  match api_key with
  | none => openrouter_key_error
  | some key =>
    if key = [] then openrouter_key_error
    else
      match http (mkChatRequest prompt context) with
      | .exn msg =>
        "I\x27m having trouble accessing the AI model right now. Error: ".toList ++ msg
      | .response status body =>
        if status = 200 then
          match body.choices with
          | some (c :: _) => c
          | some [] => no_choices_fallback
          | none => no_choices_fallback
        else
          "I\x27m having trouble accessing the AI model right now. Status: ".toList
            ++ (toString status).toList

/-! ## Session state, reset actions and the auto-load block -/

/-- One entry of `st.session_state.chat_history`. -/
structure ChatTurn where
  role : Str
  content : Str
deriving DecidableEq, Repr

/-- The `st.session_state` keys the application uses (app.py line 162 and
line 505).  Deleted keys are re-initialised to `None`/`False` (line 162-164)
before any read, and `chat_history` to `[]` (line 505-506), so deletion is
modelled as resetting to the default.  The init loop writes `False` rather
than `None` into the string-valued keys; since the code only ever tests
their truthiness, both are modelled as `none`. -/
structure SessionState where
  xray_data : Option XRayResult
  uploaded_file_path : Option Str
  uploaded_file_name : Option Str
  uploaded_file_type : Option Str
  processing_complete : Bool
  used_existing_file : Bool
  auto_loaded_file : Bool
  chat_history : List ChatTurn
deriving DecidableEq, Repr

/-- The session state after the init loop on a fresh session. -/
def initial_state : SessionState :=
  ⟨none, none, none, none, false, false, false, []⟩

/-- From `app.py` line 57-63, `reset_analysis()`: deletes every listed key;
the next render re-initialises them all to their defaults. -/
def reset_analysis (s : SessionState) : SessionState :=
  initial_state

/-- From `app.py` line 202-207: the body of the `🔄 Re-process File` button
handler (it assigns exactly four keys, then reruns). -/
def reprocess_click (s : SessionState) : SessionState :=
  { s with processing_complete := false, xray_data := none,
           used_existing_file := false, auto_loaded_file := false }

/-- The remote side of the auto-load block: whether `gx` and `bucket_id`
are both set, and — when `check_file_exists` finds the sample document —
the X-Ray that `get_xray_for_existing_document` returns for it
(`none` = no document of that name in the bucket). -/
structure RemoteEnv where
  gx_available : Bool
  existing_doc : Option XRayResult
  sample_file_name : Str
deriving Repr

/-- From `app.py` line 280-296: the auto-load block of one render cycle.  The
returned `Bool` records whether the `check_file_exists` lookup was
performed on this cycle. -/
def autoload_block (env : RemoteEnv) (s : SessionState) : SessionState × Bool :=
  if env.gx_available && !s.auto_loaded_file && s.xray_data.isNone then
    match env.existing_doc with
    | some xray =>
      ({ s with xray_data := some xray,
                uploaded_file_name := some env.sample_file_name,
                uploaded_file_type := some "application/pdf".toList,
                processing_complete := true,
                used_existing_file := true,
                auto_loaded_file := true }, true)
    | none => ({ s with auto_loaded_file := true }, true)
  else (s, false)

/-- Python truthiness of an optional string. -/
def truthy : Option Str → Bool
  | some s => !s.isEmpty
  | none => false

/-- User-visible interaction steps of one session: a render cycle (which
runs the auto-load block), a click on `🔄 Re-process File`, and a click on
`🔄 Clear Analysis`. -/
inductive Event where
  | render
  | reprocess
  | clear
deriving DecidableEq, Repr

/-- One interaction step.  The re-process button is only rendered when a
file name is shown (`app.py` line 197), so the click is a no-op otherwise.
The `Bool` records whether a `check_file_exists` lookup happened. -/
def step (env : RemoteEnv) (s : SessionState) : Event → SessionState × Bool
  | .render => autoload_block env s
  | .reprocess => if truthy s.uploaded_file_name then (reprocess_click s, false) else (s, false)
  | .clear => (reset_analysis s, false)

/-- Run a sequence of interaction steps, counting `check_file_exists`
lookups. -/
def run_events (env : RemoteEnv) (s : SessionState) : List Event → SessionState × Nat
  | [] => (s, 0)
  | e :: es =>
    ((run_events env (step env s e).1 es).1,
     (if (step env s e).2 then 1 else 0) + (run_events env (step env s e).1 es).2)

/-! ## GroundX client initialisation (`app.py` line 241-277) -/

/-- The literal placeholder value checked at `app.py` line 257. -/
def placeholder_key : Str := "your-groundx-api-key-here".toList

/-- The remediation message recorded at `app.py` line 259. -/
def groundx_key_error : Str :=
  "API key is missing or still using placeholder value. Please update GROUNDX_API_KEY in your .env file with your actual API key.".toList

/-- ASCII whitespace stripped by Python `str.strip()` (the keys the claims
evaluate contain no exotic Unicode whitespace). -/
def isPySpace (c : Char) : Bool :=
  c = ' ' || c = '\t' || c = '\n' || c = '\r' || c = '\x0b' || c = '\x0c'

/-- Python `str.strip()`. -/
def python_strip (s : Str) : Str :=
  ((s.dropWhile isPySpace).reverse.dropWhile isPySpace).reverse

/-- Python `str.lstrip()` of the byte-order mark U+FEFF. -/
def lstrip_bom (s : Str) : Str := s.dropWhile (· = '﻿')

/-- Outcome of `create_client` + `ensure_bucket` when they are actually
invoked (they live in `groundx_utils`, an external collaborator here):
success, a raised `ValueError`, or any other exception. -/
inductive ClientOutcome where
  | ok
  | valueError (msg : Str)
  | otherError (msg : Str)
deriving DecidableEq, Repr

/-- Result of the initialisation block at `app.py` line 241-277:
whether `create_client` was invoked at all, and the final values of
`groundx_available` and `groundx_error`. -/
structure GroundxInit where
  client_created : Bool
  groundx_available : Bool
  groundx_error : Option Str
deriving DecidableEq, Repr

/-- From `app.py` line 247-277.  `raw` is the `GROUNDX_API_KEY` environment value
(`none` = unset); `outcome` is what the client creation would do if reached.
Line 254-255: a truthy key is stripped, then has leading BOMs removed;
line 257: a falsy or placeholder key disables the feature without touching
the client. -/
def groundx_init (raw : Option Str) (outcome : ClientOutcome) : GroundxInit :=
  let api_key_check : Option Str :=
    match raw with
    | none => none
    | some s => if s = [] then some s else some (lstrip_bom (python_strip s))
  match api_key_check with
  | none => ⟨false, false, some groundx_key_error⟩
  | some k =>
    if k = [] || k = placeholder_key then ⟨false, false, some groundx_key_error⟩
    else
      match outcome with
      | .ok => ⟨true, true, none⟩
      | .valueError msg => ⟨true, false, some msg⟩
      | .otherError msg => ⟨true, false, some ("Unexpected error: ".toList ++ msg)⟩

/-! ## Auxiliary notions used by the statements -/

/-- Holds (as `true`) iff `pat` occurs in `s` starting at index `i`. -/
def substrAt (pat s : Str) (i : Nat) : Bool :=
  (s.drop i).take pat.length == pat

/-- A page restricted to what the Context Window Builder can read of it:
its first 3 chunks. -/
def normPage (p : Page) : Page :=
  ⟨p.chunks.map (List.take 3)⟩

/-- A page list restricted to what the Context Window Builder can read:
first 2 pages, first 3 chunks each. -/
def normPages (ps : List Page) : List Page :=
  (ps.take 2).map normPage

/-- Spec section 4.2 / 8: some chunk among the first 2 pages and first 3
chunks per page carries a non-empty `text`, i.e. the "Document Content"
part is producible. -/
def hasContentExcerpt (x : XRayResult) : Prop :=
  ∃ ps, x.documentPages = some ps ∧
    ∃ p ∈ ps.take 2, ∃ cs, p.chunks = some cs ∧
      ∃ c ∈ cs.take 3, ∃ t, c.text = some t ∧ t ≠ []

/-- Spec section 4.2: some labeled part of the context is producible from
`x` — a non-empty summary, a content excerpt, a non-empty file type, or a
non-empty language. -/
def producible (x : XRayResult) : Prop :=
  (∃ s, x.fileSummary = some s ∧ s ≠ []) ∨ hasContentExcerpt x ∨
    (∃ s, x.fileType = some s ∧ s ≠ []) ∨ (∃ s, x.language = some s ∧ s ≠ [])

/-! ## Concrete fixtures -/

/-- The X-Ray value of the example in spec section 8: summary S, file type
PDF, language en, one page with one chunk of text T. -/
def c1_xray : XRayResult :=
  ⟨some "S".toList, some "PDF".toList, some "en".toList,
   some [⟨some [⟨some "T".toList⟩]⟩]⟩

/-- The string the Context Window Builder returns on `c1_xray`. -/
def c1_out : Str :=
  "Summary: S\n\nDocument Content: T\n\nFile Type: PDF\n\nLanguage: en".toList

/-- A session state with a document loaded and a chat already under way. -/
def c2_state : SessionState :=
  { xray_data := some c1_xray,
    uploaded_file_path := none,
    uploaded_file_name := some "sample.pdf".toList,
    uploaded_file_type := some "application/pdf".toList,
    processing_complete := true,
    used_existing_file := true,
    auto_loaded_file := true,
    chat_history := [⟨"user".toList, "hi".toList⟩, ⟨"assistant".toList, "hello".toList⟩] }

/-- A remote environment in which the client is configured and the bucket
holds a document under the default sample name. -/
def c3_env : RemoteEnv :=
  ⟨true, some c1_xray, "tmpivkf8qf8_sample-file.pdf".toList⟩

/-! ## Theorems -/

/-- C8: for every XRayResult and any two question strings, the Context
Window Builder returns the same string — the question parameter has no
influence on its output. -/
theorem c8_question_has_no_influence (xray : Option XRayResult) (q1 q2 : Str) :
    prepare_chat_context xray q1 = prepare_chat_context xray q2 := rfl

/-- C10: the Chat Turn Generator substitutes the fixed fallback instruction
for every falsy context, so with the empty-string context it builds the
same prompt — and behaves identically — as with no context at all. -/
theorem c10_empty_context_equals_none (key : Option Str) (q : Str)
    (http : ChatRequest → HttpResult) :
    resolve_context (some []) = no_context_instruction ∧
    full_prompt q (resolve_context (some [])) = full_prompt q (resolve_context none) ∧
    generate_chat_response key q (some []) http = generate_chat_response key q none http :=
  ⟨rfl, rfl, rfl⟩

/-- C2 counterexample: the explicit re-process action does not clear the
chat session history — on a state with a non-empty chat history it resets
the XRayResult and the flags but leaves the history (and file name) in
place. -/
theorem c2_counterexample_reprocess_keeps_chat :
    (reprocess_click c2_state).xray_data = none ∧
    (reprocess_click c2_state).auto_loaded_file = false ∧
    (reprocess_click c2_state).used_existing_file = false ∧
    (reprocess_click c2_state).chat_history ≠ [] := by
  refine ⟨rfl, rfl, rfl, ?_⟩
  decide

/-- C2 amended: the clear action (`reset_analysis`) resets all derived
state — XRayResult, chat history, flags, and the recorded file name; the
re-process action resets the XRayResult and the
processing/usedExisting/auto-loaded flags but preserves the chat history
and the file name. -/
theorem c2_amended_clear_vs_reprocess (s : SessionState) :
    (reset_analysis s).xray_data = none ∧
    (reset_analysis s).chat_history = [] ∧
    (reset_analysis s).processing_complete = false ∧
    (reset_analysis s).used_existing_file = false ∧
    (reset_analysis s).auto_loaded_file = false ∧
    (reset_analysis s).uploaded_file_name = none ∧
    (reprocess_click s).xray_data = none ∧
    (reprocess_click s).processing_complete = false ∧
    (reprocess_click s).used_existing_file = false ∧
    (reprocess_click s).auto_loaded_file = false ∧
    (reprocess_click s).chat_history = s.chat_history ∧
    (reprocess_click s).uploaded_file_name = s.uploaded_file_name :=
  ⟨rfl, rfl, rfl, rfl, rfl, rfl, rfl, rfl, rfl, rfl, rfl, rfl⟩

/-- C4: an included chunk text longer than 500 characters contributes
exactly its first 500 characters plus the fixed ellipsis marker; an
included chunk text of at most 500 characters is reproduced verbatim. -/
theorem c4_truncation_law (c : Chunk) (t : Str) (hc : c.text = some t) (ht : t ≠ []) :
    (t.length ≤ 500 → chunkExcerpt c = some t) ∧
    (500 < t.length →
      chunkExcerpt c = some (t.take 500 ++ "...".toList) ∧ (t.take 500).length = 500) := by
  constructor
  · intro hle
    simp only [chunkExcerpt, hc, truncateText]
    rw [if_neg ht, if_neg (by omega)]
  · intro hgt
    refine ⟨?_, ?_⟩
    · simp only [chunkExcerpt, hc, truncateText]
      rw [if_neg ht, if_pos (by omega)]
    · rw [List.length_take]
      omega

/-- Witness for C4 at a concrete 501-character chunk text. -/
theorem c4_truncation_law_witness :
    chunkExcerpt ⟨some (List.replicate 501 'a')⟩ =
      some ((List.replicate 501 'a').take 500 ++ "...".toList) ∧
    ((List.replicate 501 'a').take 500).length = 500 :=
  (c4_truncation_law ⟨some (List.replicate 501 'a')⟩ (List.replicate 501 'a') rfl
      (by rw [Ne, List.replicate_eq_nil_iff]; norm_num)).2
    (by rw [List.length_replicate]; norm_num)

/-- C9: a missing, empty, or placeholder `GROUNDX_API_KEY` is treated as
absent — no document API client is created, the feature is marked
unavailable, and the remediation message is recorded; the outcome the
client creation would have had is irrelevant (it is never attempted, and
repeated evaluation changes nothing). -/
theorem c9_missing_or_placeholder_key (raw : Option Str) (outcome : ClientOutcome)
    (h : raw = none ∨ raw = some [] ∨ raw = some placeholder_key) :
    groundx_init raw outcome = ⟨false, false, some groundx_key_error⟩ ∧
    (∀ outcome2, groundx_init raw outcome2 = groundx_init raw outcome) := by
  rcases h with h | h | h <;> subst h
  · exact ⟨rfl, fun _ => rfl⟩
  · exact ⟨rfl, fun _ => rfl⟩
  · exact ⟨rfl, fun _ => rfl⟩

/-- Witness for C9 at the literal placeholder key. -/
theorem c9_missing_or_placeholder_key_witness :
    (some placeholder_key = none ∨ some placeholder_key = some ([] : Str) ∨
      some placeholder_key = some placeholder_key) ∧
    groundx_init (some placeholder_key) ClientOutcome.ok =
      ⟨false, false, some groundx_key_error⟩ :=
  ⟨Or.inr (Or.inr rfl),
   (c9_missing_or_placeholder_key (some placeholder_key) ClientOutcome.ok
      (Or.inr (Or.inr rfl))).1⟩

/-- The auto-load block either does nothing (no lookup), or it performs the
lookup and leaves the sticky flag set. -/
theorem autoload_block_cases (env : RemoteEnv) (s : SessionState) :
    autoload_block env s = (s, false) ∨
    ((autoload_block env s).2 = true ∧ ((autoload_block env s).1).auto_loaded_file = true) := by
  unfold autoload_block
  by_cases h : (env.gx_available && !s.auto_loaded_file && s.xray_data.isNone) = true
  · rw [if_pos h]
    cases env.existing_doc <;> simp
  · rw [if_neg h]
    exact Or.inl rfl

/-- Once the sticky flag is set, a render cycle performs no lookup and
leaves the state unchanged. -/
theorem autoload_block_skip (env : RemoteEnv) (s : SessionState)
    (h : s.auto_loaded_file = true) : autoload_block env s = (s, false) := by
  unfold autoload_block
  rw [if_neg]
  simp [h]

/-- With the sticky flag set, a run of pure render cycles performs no
lookups at all. -/
theorem run_renders_flagged (env : RemoteEnv) :
    ∀ es : List Event, (∀ e ∈ es, e = Event.render) →
      ∀ s : SessionState, s.auto_loaded_file = true → run_events env s es = (s, 0) := by
  intro es
  induction es with
  | nil => intro _ s _; rfl
  | cons e es ih =>
    intro h s hs
    have he : e = Event.render := h e (List.mem_cons_self e es)
    subst he
    have hstep : step env s Event.render = (s, false) := autoload_block_skip env s hs
    have hrest : ∀ e ∈ es, e = Event.render := fun e he' => h e (List.mem_cons_of_mem _ he')
    simp [run_events, hstep, ih hrest s hs]

/-- C3 counterexample: in the session `render, re-process, render` against
a bucket holding the sample document, the existing-document lookup runs
twice — the re-process action resets the sticky flag, so the flag does not
prevent a second lookup in the session. -/
theorem c3_counterexample_two_lookups :
    (run_events c3_env initial_state [Event.render, Event.reprocess, Event.render]).2 = 2 := by
  decide

/-- C3 amended: the existing-document lookup runs at most once per stretch
of render cycles — from any state, any session consisting only of render
cycles (no clear/re-process action, which resets the sticky flag) performs
at most one lookup. -/
theorem c3_amended_lookup_once_between_resets (env : RemoteEnv) :
    ∀ es : List Event, (∀ e ∈ es, e = Event.render) →
      ∀ s : SessionState, (run_events env s es).2 ≤ 1 := by
  intro es
  induction es with
  | nil => intro _ s; exact Nat.zero_le 1
  | cons e es ih =>
    intro h s
    have he : e = Event.render := h e (List.mem_cons_self e es)
    subst he
    have hrest : ∀ e ∈ es, e = Event.render := fun e he' => h e (List.mem_cons_of_mem _ he')
    rcases autoload_block_cases env s with hcase | ⟨h2, hflag⟩
    · have hstep : step env s Event.render = (s, false) := hcase
      simp only [run_events, hstep]
      simpa using ih hrest s
    · have hstep2 : (step env s Event.render).2 = true := h2
      have hrun : run_events env (step env s Event.render).1 es =
          ((step env s Event.render).1, 0) :=
        run_renders_flagged env es hrest _ hflag
      simp [run_events, hstep2, hrun]

/-- Witness for C3 amended on a concrete render-only session. -/
theorem c3_amended_witness :
    (∀ e ∈ [Event.render, Event.render, Event.render], e = Event.render) ∧
    (run_events c3_env initial_state [Event.render, Event.render, Event.render]).2 ≤ 1 :=
  ⟨by decide,
   c3_amended_lookup_once_between_resets c3_env
     [Event.render, Event.render, Event.render] (by decide) initial_state⟩

/-- An occurrence of a non-empty pattern starts inside the string. -/
theorem substrAt_lt_length (pat s : Str) (i : Nat) (hp : pat ≠ [])
    (h : substrAt pat s i = true) : i < s.length := by
  by_contra hge
  push_neg at hge
  rw [substrAt, beq_iff_eq, List.drop_eq_nil_of_le hge] at h
  simp only [List.take_nil] at h
  exact hp h.symm

/-- C1 counterexample: on the spec section 8 example, the output of the builder
is `Summary: S\n\nDocument Content: T\n\nFile Type: PDF\n\nLanguage: en`,
and there is no way to find S, PDF, en, T at increasing positions in it:
the only occurrence of PDF is at index 44, the only en after it at index
59, and no T occurs later. -/
theorem c1_counterexample_order :
    prepare_chat_context (some c1_xray) "Q".toList = some c1_out ∧
    ¬ ∃ i1 i2 i3 i4 : Nat, i1 < i2 ∧ i2 < i3 ∧ i3 < i4 ∧
        substrAt "S".toList c1_out i1 = true ∧
        substrAt "PDF".toList c1_out i2 = true ∧
        substrAt "en".toList c1_out i3 = true ∧
        substrAt "T".toList c1_out i4 = true := by
  refine ⟨by decide, ?_⟩
  rintro ⟨i1, i2, i3, i4, h12, h23, h34, hS, hP, hE, hT⟩
  have hlen : c1_out.length = 61 := by decide
  have hl2 : i2 < 61 := hlen ▸ substrAt_lt_length _ _ _ (by decide) hP
  have h44 : i2 = 44 := by
    have hb : ∀ j : Fin 61, substrAt "PDF".toList c1_out j.val = true → j.val = 44 := by
      decide
    exact hb ⟨i2, hl2⟩ hP
  have hl3 : i3 < 61 := hlen ▸ substrAt_lt_length _ _ _ (by decide) hE
  have h59 : i3 = 59 := by
    have hb : ∀ j : Fin 61, 44 < j.val → substrAt "en".toList c1_out j.val = true →
        j.val = 59 := by decide
    exact hb ⟨i3, hl3⟩ (h44 ▸ h23) hE
  have hl4 : i4 < 61 := hlen ▸ substrAt_lt_length _ _ _ (by decide) hT
  have hb : ∀ j : Fin 61, 59 < j.val → substrAt "T".toList c1_out j.val = true → False := by
    decide
  exact hb ⟨i4, hl4⟩ (h59 ▸ h34) hT

/-- C1 amended: on the spec section 8 example the builder returns a string
in which S, T, PDF and en occur at increasing positions — the parts appear
in the order Summary, Document Content, File Type, Language of the
builder. -/
theorem c1_amended_source_order :
    prepare_chat_context (some c1_xray) "Q".toList = some c1_out ∧
    ∃ i1 i2 i3 i4 : Nat, i1 < i2 ∧ i2 < i3 ∧ i3 < i4 ∧
      substrAt "S".toList c1_out i1 = true ∧
      substrAt "T".toList c1_out i2 = true ∧
      substrAt "PDF".toList c1_out i3 = true ∧
      substrAt "en".toList c1_out i4 = true :=
  ⟨by decide, 0, 30, 44, 59, by decide, by decide, by decide,
   by decide, by decide, by decide, by decide⟩

/-- Unfolding equation of the builder on a present result. -/
theorem prepare_chat_context_some (x : XRayResult) (q : Str) :
    prepare_chat_context (some x) q =
      if context_parts x = [] then none
      else some (List.intercalate "\n\n".toList (context_parts x)) := rfl

/-- Restricting a page to its first 3 chunks does not change its
excerpts. -/
theorem pageExcerpts_normPage (p : Page) : pageExcerpts (normPage p) = pageExcerpts p := by
  cases p with
  | mk chunks =>
    cases chunks with
    | none => rfl
    | some cs =>
      show ((cs.take 3).take 3).filterMap chunkExcerpt = (cs.take 3).filterMap chunkExcerpt
      rw [List.take_take]
      norm_num

/-- The collected excerpts are a function of the first 2 pages restricted
to their first 3 chunks. -/
theorem extracted_texts_norm (ps : List Page) :
    extracted_texts ps = (normPages ps).flatMap pageExcerpts := by
  unfold extracted_texts normPages
  rw [List.flatMap_map]
  simp only [pageExcerpts_normPage]

/-- The page-list normalisation is nil exactly on nil. -/
theorem normPages_nil_iff (ps : List Page) : normPages ps = [] ↔ ps = [] := by
  simp [normPages, List.take_eq_nil_iff]

/-- C5: the Context Window Builder reads only the first 2 pages, and only
the first 3 chunks of each — two XRayResults that agree on the other
fields and on that restriction of their pages produce the same output. -/
theorem c5_excerpt_bound (x y : XRayResult)
    (hs : x.fileSummary = y.fileSummary) (hf : x.fileType = y.fileType)
    (hl : x.language = y.language)
    (hp : x.documentPages.map normPages = y.documentPages.map normPages)
    (q : Str) :
    prepare_chat_context (some x) q = prepare_chat_context (some y) q := by
  have hcp : content_part x.documentPages = content_part y.documentPages := by
    cases hx : x.documentPages with
    | none =>
      cases hy : y.documentPages with
      | none => rfl
      | some qs => rw [hx, hy] at hp; simp at hp
    | some ps =>
      cases hy : y.documentPages with
      | none => rw [hx, hy] at hp; simp at hp
      | some qs =>
        rw [hx, hy] at hp
        simp only [Option.map_some'] at hp
        have hpq : normPages ps = normPages qs := by injection hp
        have hext : extracted_texts ps = extracted_texts qs := by
          rw [extracted_texts_norm, extracted_texts_norm, hpq]
        have hnil : ps = [] ↔ qs = [] := by
          rw [← normPages_nil_iff ps, ← normPages_nil_iff qs, hpq]
        show content_part (some ps) = content_part (some qs)
        by_cases hps : ps = []
        · have hqs : qs = [] := hnil.1 hps
          subst hps; subst hqs; rfl
        · have hqs : qs ≠ [] := fun h => hps (hnil.2 h)
          simp only [content_part, if_neg hps, if_neg hqs, hext]
  rw [prepare_chat_context_some, prepare_chat_context_some]
  unfold context_parts
  rw [hs, hf, hl, hcp]

/-- Witness for C5: a 3-page document with extra chunks past the third
and a 2-page document agreeing on the readable restriction give the same
output. -/
theorem c5_excerpt_bound_witness :
    ((some [⟨some [⟨some "A".toList⟩, ⟨some "B".toList⟩, ⟨some "C".toList⟩,
        ⟨some "D".toList⟩]⟩, ⟨some [⟨some "E".toList⟩]⟩,
        ⟨some [⟨some "Z".toList⟩]⟩] : Option (List Page)).map normPages =
      (some [⟨some [⟨some "A".toList⟩, ⟨some "B".toList⟩, ⟨some "C".toList⟩]⟩,
        ⟨some [⟨some "E".toList⟩]⟩] : Option (List Page)).map normPages) ∧
    prepare_chat_context
        (some ⟨some "S".toList, none, none,
          some [⟨some [⟨some "A".toList⟩, ⟨some "B".toList⟩, ⟨some "C".toList⟩,
            ⟨some "D".toList⟩]⟩, ⟨some [⟨some "E".toList⟩]⟩,
            ⟨some [⟨some "Z".toList⟩]⟩]⟩) "q".toList =
      prepare_chat_context
        (some ⟨some "S".toList, none, none,
          some [⟨some [⟨some "A".toList⟩, ⟨some "B".toList⟩, ⟨some "C".toList⟩]⟩,
            ⟨some [⟨some "E".toList⟩]⟩]⟩) "q".toList :=
  ⟨by decide, c5_excerpt_bound _ _ rfl rfl rfl (by decide) "q".toList⟩

/-- A chunk contributes no excerpt exactly when it has no non-empty text. -/
theorem chunkExcerpt_eq_none_iff (c : Chunk) :
    chunkExcerpt c = none ↔ ∀ t, c.text = some t → t = [] := by
  cases c with
  | mk text =>
    cases text with
    | none => simp [chunkExcerpt]
    | some t =>
      by_cases ht : t = []
      · subst ht; simp [chunkExcerpt]
      · simp [chunkExcerpt, ht]

/-- A page contributes no excerpt exactly when none of its first 3 chunks
does. -/
theorem pageExcerpts_eq_nil_iff (p : Page) :
    pageExcerpts p = [] ↔
      ∀ cs, p.chunks = some cs → ∀ c ∈ cs.take 3, chunkExcerpt c = none := by
  cases p with
  | mk chunks =>
    cases chunks with
    | none => simp [pageExcerpts]
    | some cs => simp [pageExcerpts, List.filterMap_eq_nil_iff]

/-- No excerpts are collected exactly when no chunk among the first 2 pages
and first 3 chunks per page has a non-empty text. -/
theorem extracted_texts_nil_iff_no_chunk (ps : List Page) :
    extracted_texts ps = [] ↔
      ¬ ∃ p ∈ ps.take 2, ∃ cs, p.chunks = some cs ∧
          ∃ c ∈ cs.take 3, ∃ t, c.text = some t ∧ t ≠ [] := by
  rw [extracted_texts, List.flatMap_eq_nil_iff]
  constructor
  · rintro h ⟨p, hp, cs, hcs, c, hc, t, ht, htne⟩
    have h1 := (pageExcerpts_eq_nil_iff p).1 (h p hp) cs hcs c hc
    exact htne ((chunkExcerpt_eq_none_iff c).1 h1 t ht)
  · intro h p hp
    rw [pageExcerpts_eq_nil_iff]
    intro cs hcs c hc
    rw [chunkExcerpt_eq_none_iff]
    intro t ht
    by_contra htne
    exact h ⟨p, hp, cs, hcs, c, hc, t, ht, htne⟩

/-- The `Document Content` part is absent exactly when no readable chunk
text exists. -/
theorem content_part_eq_nil_iff (dp : Option (List Page)) :
    content_part dp = [] ↔
      ¬ ∃ ps, dp = some ps ∧ ∃ p ∈ ps.take 2, ∃ cs, p.chunks = some cs ∧
          ∃ c ∈ cs.take 3, ∃ t, c.text = some t ∧ t ≠ [] := by
  cases dp with
  | none => simp [content_part]
  | some ps =>
    by_cases hps : ps = []
    · subst hps; simp [content_part]
    · have hred : content_part (some ps) =
          (if extracted_texts ps = [] then []
           else ["Document Content: ".toList ++
             List.intercalate " ".toList (extracted_texts ps)]) := by
        simp [content_part, hps]
      rw [hred]
      constructor
      · rintro h ⟨ps', hps', hinner⟩
        injection hps' with he
        subst he
        by_cases hts : extracted_texts ps = []
        · exact (extracted_texts_nil_iff_no_chunk ps).1 hts hinner
        · rw [if_neg hts] at h
          simp at h
      · intro h
        have hts : extracted_texts ps = [] := by
          rw [extracted_texts_nil_iff_no_chunk]
          intro hinner
          exact h ⟨ps, rfl, hinner⟩
        rw [if_pos hts]

/-- The `Summary` part is absent exactly when there is no non-empty
summary. -/
theorem summary_part_eq_nil_iff (fs : Option Str) :
    summary_part fs = [] ↔ ¬ ∃ s, fs = some s ∧ s ≠ [] := by
  cases fs with
  | none => simp [summary_part]
  | some s =>
    by_cases hs : s = []
    · subst hs; simp [summary_part]
    · simp [summary_part, hs]

/-- The `File Type` part is absent exactly when there is no non-empty file
type. -/
theorem filetype_part_eq_nil_iff (ft : Option Str) :
    filetype_part ft = [] ↔ ¬ ∃ s, ft = some s ∧ s ≠ [] := by
  cases ft with
  | none => simp [filetype_part]
  | some s =>
    by_cases hs : s = []
    · subst hs; simp [filetype_part]
    · simp [filetype_part, hs]

/-- The `Language` part is absent exactly when there is no non-empty
language. -/
theorem language_part_eq_nil_iff (lg : Option Str) :
    language_part lg = [] ↔ ¬ ∃ s, lg = some s ∧ s ≠ [] := by
  cases lg with
  | none => simp [language_part]
  | some s =>
    by_cases hs : s = []
    · subst hs; simp [language_part]
    · simp [language_part, hs]

/-- The builder collects no part exactly when no labeled part is
producible. -/
theorem context_parts_eq_nil_iff (x : XRayResult) :
    context_parts x = [] ↔ ¬ producible x := by
  unfold context_parts producible hasContentExcerpt
  simp only [List.append_eq_nil]
  rw [summary_part_eq_nil_iff, content_part_eq_nil_iff, filetype_part_eq_nil_iff,
    language_part_eq_nil_iff, not_or, not_or, not_or]
  tauto

/-- C6: the Context Window Builder is total on every XRayResult shape
(absent fields included, it is a function into `Option Str`), and returns
`none` exactly when the result is absent or no producible labeled part
exists; otherwise it returns a string. -/
theorem c6_none_iff_nothing_producible (xray : Option XRayResult) (q : Str) :
    prepare_chat_context xray q = none ↔
      xray = none ∨ ∃ x, xray = some x ∧ ¬ producible x := by
  cases xray with
  | none => simp [prepare_chat_context]
  | some x =>
    rw [prepare_chat_context_some]
    constructor
    · intro h
      refine Or.inr ⟨x, rfl, ?_⟩
      rw [← context_parts_eq_nil_iff]
      by_contra hne
      rw [if_neg hne] at h
      simp at h
    · rintro (h | ⟨x', hx', hnp⟩)
      · simp at h
      · injection hx' with he
        subst he
        rw [if_pos ((context_parts_eq_nil_iff x).2 hnp)]

/-- C7: the Chat Turn Generator always returns a string (it is a total
function into `Str`): with no credential it returns the fixed error naming
`OPENROUTER_API_KEY`; on a non-200 status it returns a string embedding the
status code; on a raised transport error it returns a string embedding the
error description; on a 200 response without usable choices it returns the
fixed could-not-generate fallback. -/
theorem c7_failure_paths_return_strings (key : Option Str) (q : Str)
    (ctx : Option Str) (http : ChatRequest → HttpResult) :
    ((key = none ∨ key = some []) →
      generate_chat_response key q ctx http = openrouter_key_error ∧
      ∃ a b, openrouter_key_error = a ++ "OPENROUTER_API_KEY".toList ++ b) ∧
    (∀ k, key = some k → k ≠ [] →
      (∀ status body, http (mkChatRequest q ctx) = HttpResult.response status body →
        status ≠ 200 →
        ∃ pre, generate_chat_response key q ctx http = pre ++ (toString status).toList) ∧
      (∀ msg, http (mkChatRequest q ctx) = HttpResult.exn msg →
        ∃ pre, generate_chat_response key q ctx http = pre ++ msg) ∧
      (∀ body, http (mkChatRequest q ctx) = HttpResult.response 200 body →
        body.choices = none ∨ body.choices = some [] →
        generate_chat_response key q ctx http = no_choices_fallback ∧
        ∃ a b, no_choices_fallback =
          a ++ "couldn\x27t generate a response".toList ++ b)) := by
  constructor
  · rintro (hk | hk) <;> subst hk
    · exact ⟨rfl, "❌ Error: ".toList,
        " not found in environment variables. Please add it to your .env file.".toList,
        by decide⟩
    · exact ⟨rfl, "❌ Error: ".toList,
        " not found in environment variables. Please add it to your .env file.".toList,
        by decide⟩
  · intro k hk hkne
    subst hk
    have hgen : generate_chat_response (some k) q ctx http =
        match http (mkChatRequest q ctx) with
        | HttpResult.exn msg =>
          "I\x27m having trouble accessing the AI model right now. Error: ".toList ++ msg
        | HttpResult.response status body =>
          if status = 200 then
            match body.choices with
            | some (c :: _) => c
            | some [] => no_choices_fallback
            | none => no_choices_fallback
          else
            "I\x27m having trouble accessing the AI model right now. Status: ".toList
              ++ (toString status).toList := by
      simp only [generate_chat_response, if_neg hkne]
    refine ⟨?_, ?_, ?_⟩
    · intro status body hresp hstat
      rw [hgen, hresp]
      simp only [if_neg hstat]
      exact ⟨_, rfl⟩
    · intro msg hresp
      rw [hgen, hresp]
      exact ⟨_, rfl⟩
    · intro body hresp hch
      have hbody : generate_chat_response (some k) q ctx http =
          match body.choices with
          | some (c :: _) => c
          | some [] => no_choices_fallback
          | none => no_choices_fallback := by
        rw [hgen, hresp]
        rfl
      rw [hbody]
      rcases hch with hch | hch <;> rw [hch] <;>
        exact ⟨rfl, "Sorry, I ".toList, ".".toList, by decide⟩

/-- Witness for C7 on concrete inputs: missing key, status 500, transport
error, and an empty 200 body. -/
theorem c7_failure_paths_witness :
    (generate_chat_response none "q".toList none (fun _ => HttpResult.exn []) =
      openrouter_key_error) ∧
    (∃ pre, generate_chat_response (some "k".toList) "q".toList none
        (fun _ => HttpResult.response 500 ⟨none⟩) = pre ++ (toString 500).toList) ∧
    (∃ pre, generate_chat_response (some "k".toList) "q".toList none
        (fun _ => HttpResult.exn "boom".toList) = pre ++ "boom".toList) ∧
    (generate_chat_response (some "k".toList) "q".toList none
        (fun _ => HttpResult.response 200 ⟨none⟩) = no_choices_fallback) :=
  ⟨((c7_failure_paths_return_strings none "q".toList none
      (fun _ => HttpResult.exn [])).1 (Or.inl rfl)).1,
   (((c7_failure_paths_return_strings (some "k".toList) "q".toList none
      (fun _ => HttpResult.response 500 ⟨none⟩)).2 "k".toList rfl (by decide)).1
        500 ⟨none⟩ rfl (by decide)),
   (((c7_failure_paths_return_strings (some "k".toList) "q".toList none
      (fun _ => HttpResult.exn "boom".toList)).2 "k".toList rfl (by decide)).2.1
        "boom".toList rfl),
   (((c7_failure_paths_return_strings (some "k".toList) "q".toList none
      (fun _ => HttpResult.response 200 ⟨none⟩)).2 "k".toList rfl (by decide)).2.2
        ⟨none⟩ rfl (Or.inl rfl)).1⟩

end GroundX
